import Mathlib

/-!
Verification development for the KonturExpansionChrome repository.

The repository is a browser extension that scrapes booking data from the
hotel.kontur.ru DOM (`parser.js`: `parseBookingData` and friends),
computes a prepayment amount and a volume discount, renders a prepayment
invoice PDF with two GOST R 56042-2014 payment QR codes
(`invoice-generator.js`), and forwards the PDF by email through a
serverless relay (`backend/api/send-invoice.js`); `content.js` overrides
the prepayment from cached per-day rates before generating the PDF.

Modelling conventions:
* JavaScript numbers are modelled as exact integers (`ℤ`) and exact
  rationals (`ℚ`); the program only ever rounds ratios of integers.
* `Math.round x` is modelled as `⌊x + 1/2⌋` (JS rounds half toward +∞):
  `jsRound` on `ℚ`, and the kernel-computable `jsRoundDiv a b` for the
  pervasive pattern `Math.round(a / b)` with `b > 0`
  (`jsRoundDiv_eq_jsRound` bridges the two).
* DOM queries performed by the individual field scrapers
  (`parseGuestName`, `parseTotalPrice`, ...) are abstracted as a
  `PageObs` record of observations; the control flow and arithmetic of
  `parseBookingData` itself is translated statement by statement.
* Fallible JS code is modelled with `Option`; JS string falsiness
  (`undefined`, `null`, `''`) is modelled by `jsTruthy` on
  `Option String`.
-/

/-! ### JS primitives -/

/-- JS `Math.round`: rounds half toward +∞, `Math.round x = ⌊x + 0.5⌋`. -/
def jsRound (q : ℚ) : ℤ := ⌊q + 1/2⌋

/--
`Math.round (a / b)` for integers `a`, `b` with `b > 0`, computed exactly in
integer arithmetic: `⌊a/b + 1/2⌋ = ⌊(2a+b)/(2b)⌋`, and `/` on `ℤ` is floor
division for a positive divisor.
-/
def jsRoundDiv (a b : ℤ) : ℤ := (2 * a + b) / (2 * b)

theorem jsRoundDiv_eq_jsRound (a b : ℤ) (hb : 0 < b) :
    jsRoundDiv a b = jsRound ((a : ℚ) / (b : ℚ)) := by
  have h2b : ((2 * b).toNat : ℤ) = 2 * b := Int.toNat_of_nonneg (by omega)
  have key : ((a : ℚ) / (b : ℚ) + 1/2) = ((2 * a + b : ℤ) : ℚ) / (((2 * b).toNat : ℕ) : ℚ) := by
    have hb' : ((b : ℚ)) ≠ 0 := by
      exact_mod_cast (by omega : (b : ℤ) ≠ 0)
    have : (((2 * b).toNat : ℕ) : ℚ) = ((2 * b : ℤ) : ℚ) := by
      exact_mod_cast congrArg (fun z : ℤ => (z : ℚ)) h2b
    rw [this]
    push_cast
    field_simp
    ring
  rw [jsRound, key, Rat.floor_intCast_div_natCast, jsRoundDiv, h2b]

/-- JS truthiness of a possibly-absent string: `undefined`/`null`/`''` are falsy. -/
def jsTruthy (o : Option String) : Bool := (o.getD "") ≠ ""

/-! ### parser.js : calculateDiscount -/

/--
`calculateDiscount` from `parser.js`:
6+ nights → 8 %, 4–5 nights → 5 %, otherwise 0 %.
-/
def calculateDiscount (nightsCount : ℤ) : ℤ :=
  if nightsCount ≥ 6 then 8
  else if nightsCount ≥ 4 then 5
  else 0

example : calculateDiscount 3 = 0 := by decide
example : calculateDiscount 4 = 5 := by decide
example : calculateDiscount 5 = 5 := by decide
example : calculateDiscount 6 = 8 := by decide
example : jsRoundDiv 7 2 = 4 := by decide
example : jsRoundDiv 5 3 = 2 := by decide
example : jsRoundDiv 4 3 = 1 := by decide
example : jsRoundDiv 10 3 = 3 := by decide

/-! ### parser.js : parsePrice

`parsePrice` strips every character except digits, `.` and `,`, decides
whether the string ends in a decimal-comma pattern (`/,\d{1,2}$/`), rewrites
separators accordingly, runs `parseFloat` and rounds the result
(`NaN → 0`).
-/

/-- The character class kept by `replace(/[^\d.,]/g, '')`. -/
def keepPriceChar (c : Char) : Bool := c.isDigit || c = '.' || c = ','

/-- The test `/,\d{1,2}$/`: the string ends in a comma followed by one or two digits. -/
def endsCommaDigits (cs : List Char) : Bool :=
  match cs.reverse with
  | a :: ',' :: _ => a.isDigit
  | a :: b :: ',' :: _ => a.isDigit && b.isDigit
  | _ => false

/-- `replace(',', '.')` replaces only the first occurrence of a comma. -/
def replaceFirstComma : List Char → List Char
  | [] => []
  | ',' :: rest => '.' :: rest
  | c :: rest => c :: replaceFirstComma rest

/-- Numeric value of a decimal digit character. -/
def digitVal (c : Char) : ℕ := c.toNat - '0'.toNat

/-- Value of a big-endian list of decimal digit characters. -/
def digitsVal (cs : List Char) : ℕ :=
  cs.foldl (fun acc c => 10 * acc + digitVal c) 0

/-- Sign handling of JS `parseFloat`: an optional leading `-` or `+`. -/
def jsSign (cs : List Char) : ℚ × List Char :=
  match cs with
  | c :: rest =>
      if c = '-' then (-1, rest)
      else if c = '+' then (1, rest)
      else (1, cs)
  | [] => (1, cs)

/--
Magnitude parsed by JS `parseFloat` after the sign: a run of digits, then
optionally a dot and a second run of digits; `NaN` (here `none`) when no
digit was consumed.  The exponent clause of `parseFloat` cannot fire on
`parsePrice`'s inputs (they contain no letters) and is omitted.
-/
def jsParseFloatMag (cs : List Char) : Option ℚ :=
  let intPart := cs.takeWhile Char.isDigit
  let rest := cs.drop intPart.length
  match rest with
  | '.' :: rest2 =>
      let fracPart := rest2.takeWhile Char.isDigit
      if intPart.isEmpty && fracPart.isEmpty then none
      else some ((digitsVal intPart : ℚ) + (digitsVal fracPart : ℚ) / 10 ^ fracPart.length)
  | _ => if intPart.isEmpty then none else some (digitsVal intPart)

/-- JS `parseFloat`, on the digit/dot/comma strings `parsePrice` feeds it. -/
def jsParseFloat (cs : List Char) : Option ℚ :=
  let sr := jsSign cs
  (jsParseFloatMag sr.2).map (fun m => sr.1 * m)

/--
`parsePrice` from `parser.js`:
drop everything but digits/`.`/`,`; if the string ends in a decimal comma,
delete the dots and turn the first comma into a dot, otherwise delete the
commas; `parseFloat`; `NaN → 0`, otherwise `Math.round`.
-/
def parsePrice (priceStr : Option String) : ℤ :=
  if !jsTruthy priceStr then 0
  else
    let cleaned := (priceStr.getD "").data.filter keepPriceChar
    let cleaned2 :=
      if endsCommaDigits cleaned then
        replaceFirstComma (cleaned.filter (fun c => c ≠ '.'))
      else
        cleaned.filter (fun c => c ≠ ',')
    match jsParseFloat cleaned2 with
    | none => 0
    | some price => jsRound price

/-! ### parser.js : isBookingPage and the booking-page data model -/

/-- Does `pat` match at the head of `l`? -/
def matchHere : List Char → List Char → Bool
  | [], _ => true
  | _ :: _, [] => false
  | p :: ps, c :: cs => p = c && matchHere ps cs

/-- Does `pat` occur anywhere in `l`? -/
def findSub (pat : List Char) : List Char → Bool
  | [] => matchHere pat []
  | c :: cs => matchHere pat (c :: cs) || findSub pat cs

/--
`isBookingPage` from `parser.js`: `/\/bookings\/.*\/id\//.test(pathname)`.
The pattern fires exactly when `/bookings/` occurs and `/id/` occurs at or
after the end of that occurrence (URL pathnames contain no newline, so `.`
matches every intervening character).
-/
def isBookingPage (pathname : String) : Bool :=
  go pathname.data
where
  go : List Char → Bool
    | [] => false
    | c :: cs =>
        (matchHere "/bookings/".data (c :: cs)
          && findSub "/id/".data ((c :: cs).drop "/bookings/".data.length))
        || go cs

example : isBookingPage "/bookings/daily/id/42" = true := by decide
example : isBookingPage "/bookings/daily" = false := by decide
example : isBookingPage "/settings/id/42" = false := by decide

/-- Guest-count summary extracted by `parseGuestCount` (its DOM walk is abstracted). -/
structure GuestCount where
  adults : ℤ
  children : ℤ
  childrenAges : List ℤ
  total : ℤ
  text : String
deriving DecidableEq

/-- The flat booking record built at the end of `parseBookingData`. -/
structure BookingData where
  guestName : String
  guestEmail : String
  guestPhone : String
  checkIn : String
  checkOut : String
  checkInTime : String
  checkOutTime : String
  roomType : String
  totalPrice : ℤ
  paidAmount : ℤ
  debtAmount : ℤ
  guestCount : GuestCount
  bookingNumber : String
  nightsCount : ℤ
  nightlyRate : ℤ
  prepayAmount : ℤ
  dailyRates : List ℤ
  discountPercent : ℤ
  discountAmount : ℤ
  fullPaymentWithDiscount : ℤ
deriving DecidableEq

/--
Abstract observations of the booking page.  Each field is the result of one
of the marker-based DOM scrapers called by `parseBookingData`
(`parseBookingNumber`, `parseDates`, `parseRoomType`, `parseTotalPrice`,
`parseGuestName`, `parseGuestEmail`, `parseGuestPhone`, `parsePaidAmount`,
`parseDebtAmount`, `parseGuestCount`, `parseCheckTimes`,
`calculateNights`, `parseNightsFromText`,
`parseDailyRatesFromTooltip().rates`); the scrapers return `null` /
`0` / `[]` defaults themselves, which the `Option` and integer fields
reflect.
-/
structure PageObs where
  pathname : String
  hasContainer : Bool
  bookingNumber : Option String
  checkIn : Option String
  checkOut : Option String
  roomType : Option String
  totalPrice : ℤ
  guestName : Option String
  guestEmail : Option String
  guestPhone : Option String
  paidAmount : ℤ
  debtAmount : ℤ
  guestCount : GuestCount
  checkInTime : Option String
  checkOutTime : Option String
  nightsFromDates : ℤ
  nightsFromText : ℤ
  dailyRates : List ℤ
deriving DecidableEq

/-! ### parser.js : parseBookingData -/

/--
Lines 100–107 of `parseBookingData`: nights from the check-in/check-out
dates when both were found (`calculateNights` observation), else 0; when
that is ≤ 0, fall back to the night count scraped from the page text.
-/
def nightsCountOf (p : PageObs) : ℤ :=
  let nights1 : ℤ :=
    if jsTruthy p.checkIn && jsTruthy p.checkOut then p.nightsFromDates else 0
  if nights1 ≤ 0 then p.nightsFromText else nights1

/-- Line 110: `nightlyRate = nightsCount > 0 ? Math.round(totalPrice / nightsCount) : 0`. -/
def nightlyRateOf (totalPrice nightsCount : ℤ) : ℤ :=
  if 0 < nightsCount then jsRoundDiv totalPrice nightsCount else 0

/--
Lines 115–130: the prepayment.  Sum of the first `min(3, length)` per-day
rates when the tooltip provided any; otherwise
`Math.round((totalPrice / nightsCount) * 3)` (0 when no nights); finally
capped at `totalPrice`.  In exact arithmetic
`(totalPrice / nightsCount) * 3 = totalPrice * 3 / nightsCount`.
-/
def prepayAmountOf (dailyRates : List ℤ) (totalPrice nightsCount : ℤ) : ℤ :=
  let prepay1 : ℤ :=
    if 0 < dailyRates.length then
      (dailyRates.take (min 3 dailyRates.length)).sum
    else if 0 < nightsCount then jsRoundDiv (totalPrice * 3) nightsCount
    else 0
  if prepay1 > totalPrice then totalPrice else prepay1

/-- Line 134: `discountAmount = Math.round(totalPrice * discountPercent / 100)`. -/
def discountAmountOf (totalPrice discountPercent : ℤ) : ℤ :=
  jsRoundDiv (totalPrice * discountPercent) 100

/-- Lines 140–161: the record literal returned by `parseBookingData`. -/
def bookingRecordOf (p : PageObs) : BookingData :=
  let nightsCount := nightsCountOf p
  let discountPercent := calculateDiscount nightsCount
  let discountAmount := discountAmountOf p.totalPrice discountPercent
  { guestName := p.guestName.getD ""
    guestEmail := p.guestEmail.getD ""
    guestPhone := p.guestPhone.getD ""
    checkIn := p.checkIn.getD ""
    checkOut := p.checkOut.getD ""
    checkInTime := p.checkInTime.getD ""
    checkOutTime := p.checkOutTime.getD ""
    roomType := p.roomType.getD ""
    totalPrice := p.totalPrice
    paidAmount := p.paidAmount
    debtAmount := p.debtAmount
    guestCount := p.guestCount
    bookingNumber := p.bookingNumber.getD ""
    nightsCount := nightsCount
    nightlyRate := nightlyRateOf p.totalPrice nightsCount
    prepayAmount := prepayAmountOf p.dailyRates p.totalPrice nightsCount
    dailyRates := p.dailyRates
    discountPercent := discountPercent
    discountAmount := discountAmount
    fullPaymentWithDiscount := p.totalPrice - discountAmount }

/--
`parseBookingData` from `parser.js`: `null` when the URL is not a booking
page or the `#MainPageTopBar` container is missing, otherwise the flat
record of scraped and computed fields.  The embedding is a total pure
function: the JS function never throws and only reads the DOM.
-/
def parseBookingData (p : PageObs) : Option BookingData :=
  if !isBookingPage p.pathname then none
  else if !p.hasContainer then none
  else some (bookingRecordOf p)

/-! ### content.js : prepareInvoice cached-rates override -/

/--
Lines 186–193 of `content.js`: the prepayment recomputed from the cached
per-day rates (sum of the first `min(3, length)` of them, capped at the
total price).
-/
def overridePrepay (cachedDailyRates : List ℤ) (totalPrice : ℤ) : ℤ :=
  let prepay := (cachedDailyRates.take (min 3 cachedDailyRates.length)).sum
  if prepay > totalPrice then totalPrice else prepay

/--
Lines 194–195 of `content.js` (`prepareInvoice`): overwrite
`bookingData.prepayAmount` and `bookingData.dailyRates` from the cached
per-day rates before generating the PDF.
-/
def applyCachedRates (b : BookingData) (cachedDailyRates : List ℤ) : BookingData :=
  { b with
    prepayAmount := overridePrepay cachedDailyRates b.totalPrice
    dailyRates := cachedDailyRates }

/-! ### invoice-generator.js : payment QR codes -/

/-- The hotel requisites (`HOTEL_DETAILS` from `hotel-details.js`). -/
structure HotelDetails where
  name : String
  address : String
  phone : String
  email : String
  inn : String
  kpp : String
  bankAccount : String
  bankName : String
  bik : String
  corrAccount : String
deriving DecidableEq

/-- JS `Array.prototype.join('|')`. -/
def joinBar : List String → String
  | [] => ""
  | [x] => x
  | x :: y :: rest => x ++ "|" ++ joinBar (y :: rest)

/--
`buildPaymentQR` from `invoice-generator.js`: the GOST R 56042-2014
payment string `ST00012|Name=...|...|Sum=...|Purpose=...`, with the sum in
kopeks (`Math.round(amountRub * 100)`).
-/
def buildPaymentQR (hotel : HotelDetails) (amountRub : ℚ) (purpose : String) : String :=
  let sumKopeks := toString (jsRound (amountRub * 100))
  joinBar
    [ "ST00012",
      "Name=" ++ hotel.name,
      "PersonalAcc=" ++ hotel.bankAccount,
      "BankName=" ++ hotel.bankName,
      "BIC=" ++ hotel.bik,
      "CorrespAcc=" ++ hotel.corrAccount,
      "PayeeINN=" ++ hotel.inn,
      "KPP=" ++ hotel.kpp,
      "Sum=" ++ sumKopeks,
      "Purpose=" ++ purpose ]

/--
Line 41 of `generateInvoicePDF`:
`fullPayment = bookingData.fullPaymentWithDiscount || bookingData.totalPrice`
(JS `||` falls through on the number 0).
-/
def fullPayment (b : BookingData) : ℤ :=
  if b.fullPaymentWithDiscount ≠ 0 then b.fullPaymentWithDiscount else b.totalPrice

/--
Lines 43–46 of `generateInvoicePDF`: the surcharge payable at the hotel,
`totalPrice - prepayAmount`, clamped at 0.
-/
def surchargeAtHotel (b : BookingData) : ℤ :=
  let s := b.totalPrice - b.prepayAmount
  if s < 0 then 0 else s

/-- Lines 251–252: purpose string of the prepayment QR code. -/
def prepayPurpose (b : BookingData) : String :=
  "Предоплата за проживание по бронированию " ++ b.bookingNumber ++ ", " ++ b.guestName

/-- Lines 274–275: purpose string of the full-payment QR code. -/
def fullPurpose (b : BookingData) : String :=
  "Оплата за проживание по бронированию " ++ b.bookingNumber ++ ", " ++ b.guestName

/--
The payment QR payloads embedded in the invoice PDF, in order of
appearance (lines 250–283 of `generateInvoicePDF`): first the prepayment
QR over `prepayAmount`, then the full-payment QR over `fullPayment`.
-/
def invoiceQRCodes (b : BookingData) (hotel : HotelDetails) : List String :=
  [ buildPaymentQR hotel (b.prepayAmount : ℚ) (prepayPurpose b),
    buildPaymentQR hotel (fullPayment b : ℚ) (fullPurpose b) ]

/-! ### backend/api/send-invoice.js : the mail relay -/

/-- Server environment of the relay (`process.env` plus the outcome of the
two network calls it makes: whether `transporter.sendMail` succeeds and
whether the IMAP append to the Sent folder succeeds). -/
structure RelayEnv where
  apiKey : Option String
  smtpEmail : Option String
  smtpPassword : Option String
  smtpOk : Bool
  imapOk : Bool
deriving DecidableEq

/-- An incoming request after body parsing: the multipart fields and the
attachment bytes (`none` when the part was absent). -/
structure RelayRequest where
  method : String
  headerApiKey : Option String
  toAddr : Option String
  subject : Option String
  text : Option String
  pdfFilename : Option String
  pdf : Option (List ℕ)
deriving DecidableEq

/-- Response and side effects of one `handler` invocation. -/
structure RelayOutcome where
  status : ℕ
  success : Bool
  imapSaved : Bool
  smtpAttempted : Bool
  emailSent : Bool
  imapAttempted : Bool
  imapArchived : Bool
deriving DecidableEq

/-- A response produced before any mail I/O was reached. -/
def noSideEffects (status : ℕ) : RelayOutcome :=
  { status := status, success := false, imapSaved := false,
    smtpAttempted := false, emailSent := false,
    imapAttempted := false, imapArchived := false }

/-- The 500 response produced when `transporter.sendMail` throws. -/
def smtpFailOutcome : RelayOutcome :=
  { status := 500, success := false, imapSaved := false,
    smtpAttempted := true, emailSent := false,
    imapAttempted := false, imapArchived := false }

/-- The 200 response after a successful send; `imapSaved` records whether
the best-effort IMAP archiving succeeded. -/
def successOutcome (imapOk : Bool) : RelayOutcome :=
  { status := 200, success := true, imapSaved := imapOk,
    smtpAttempted := true, emailSent := true,
    imapAttempted := true, imapArchived := imapOk }

/-- JS `\w` (ASCII word character). -/
def wordChar (c : Char) : Bool := c.isAlphanum || c = '_'

/-- Character class `[\w.+-]` of the local part. -/
def emailLocalChar (c : Char) : Bool := wordChar c || c = '.' || c = '+' || c = '-'

/-- Character class `[\w-]` of the first domain label. -/
def emailDomChar (c : Char) : Bool := wordChar c || c = '-'

/-- Character class `[\w.]` of the tail of the domain. -/
def emailTldChar (c : Char) : Bool := wordChar c || c = '.'

/--
The recipient check `/^[\w.+-]+@[\w-]+\.[\w.]+$/.test(to)`.
Because none of the three classes contains `@`, and the first two do not
contain `.` past their own runs, the regex matches exactly when the string
splits as `local @ label . tail` with a maximal nonempty `local` run, a
maximal nonempty `label` run, and a nonempty all-`[\w.]` `tail`.
-/
def emailMatches (s : String) : Bool :=
  let cs := s.data
  let localPart := cs.takeWhile emailLocalChar
  let rest := cs.drop localPart.length
  match rest with
  | '@' :: rest2 =>
      let dom := rest2.takeWhile emailDomChar
      let rest3 := rest2.drop dom.length
      (match rest3 with
       | '.' :: rest4 =>
           !localPart.isEmpty && !dom.isEmpty && !rest4.isEmpty && rest4.all emailTldChar
       | _ => false)
  | _ => false

example : emailMatches "guest@example.com" = true := by decide
example : emailMatches "a.b+c-d@mail-host.co.uk" = true := by decide
example : emailMatches "@example.com" = false := by decide
example : emailMatches "guest@.com" = false := by decide
example : emailMatches "guest@example" = false := by decide
example : emailMatches "gu est@example.com" = false := by decide

/-- The bytes `%PDF` that a genuine attachment must start with. -/
def pdfMagic : List ℕ := [37, 80, 68, 70]

/--
The `handler` of `backend/api/send-invoice.js`, with its response codes
and mail side effects.  Order of checks as in the source: CORS preflight,
method, `API_KEY` configured, `X-API-Key` comparison, SMTP credentials
configured, required fields present and nonempty, recipient regex,
`%PDF` magic; only then SMTP send, and — only after a successful send —
the best-effort IMAP archiving, whose failure is swallowed
(`imapSaved: false` in a still-successful response).
-/
def relayHandler (env : RelayEnv) (req : RelayRequest) : RelayOutcome :=
  if req.method = "OPTIONS" then noSideEffects 200
  else if req.method ≠ "POST" then noSideEffects 405
  else if !jsTruthy env.apiKey then noSideEffects 500
  else if req.headerApiKey.getD "" ≠ env.apiKey.getD "" then noSideEffects 401
  else if !jsTruthy env.smtpEmail || !jsTruthy env.smtpPassword then noSideEffects 500
  else
    let pdfBuffer := req.pdf.getD []
    if !jsTruthy req.toAddr || !jsTruthy req.subject || !jsTruthy req.text
        || !jsTruthy req.pdfFilename || pdfBuffer.isEmpty then noSideEffects 400
    else if !emailMatches (req.toAddr.getD "") then noSideEffects 400
    else if pdfBuffer.length < 4 || pdfBuffer.take 4 ≠ pdfMagic then noSideEffects 400
    else if !env.smtpOk then smtpFailOutcome
    else successOutcome env.imapOk

/-- All the request-level preconditions listed in the handler. -/
def relayPreconds (env : RelayEnv) (req : RelayRequest) : Prop :=
  req.headerApiKey.getD "" = env.apiKey.getD ""
  ∧ jsTruthy req.toAddr = true ∧ jsTruthy req.subject = true
  ∧ jsTruthy req.text = true ∧ jsTruthy req.pdfFilename = true
  ∧ req.pdf.getD [] ≠ []
  ∧ emailMatches (req.toAddr.getD "") = true
  ∧ 4 ≤ (req.pdf.getD []).length ∧ (req.pdf.getD []).take 4 = pdfMagic

/-! ### Claim C2 : the volume discount -/

/--
C2: for every non-negative number of nights `n`, `calculateDiscount n` is
0 for `n ≤ 3`, 5 for `4 ≤ n ≤ 5`, 8 for `n ≥ 6`; its value is always one
of 0, 5, 8, and it is monotonically non-decreasing in `n`.
-/
theorem C2_calculateDiscount_spec (n : ℤ) (hn : 0 ≤ n) :
    (n ≤ 3 → calculateDiscount n = 0)
    ∧ (4 ≤ n → n ≤ 5 → calculateDiscount n = 5)
    ∧ (6 ≤ n → calculateDiscount n = 8)
    ∧ (calculateDiscount n = 0 ∨ calculateDiscount n = 5 ∨ calculateDiscount n = 8)
    ∧ ∀ m : ℤ, n ≤ m → calculateDiscount n ≤ calculateDiscount m := by
  refine ⟨?_, ?_, ?_, ?_, ?_⟩
  · intro h; unfold calculateDiscount; split_ifs <;> omega
  · intro h h'; unfold calculateDiscount; split_ifs <;> omega
  · intro h; unfold calculateDiscount; split_ifs <;> omega
  · unfold calculateDiscount; split_ifs <;> omega
  · intro m hm; unfold calculateDiscount; split_ifs <;> omega

/-- Witness for C2 at a concrete night count. -/
theorem C2_calculateDiscount_spec_witness :
    calculateDiscount 7 = 8 ∧ calculateDiscount 7 ≤ calculateDiscount 9 :=
  ⟨(C2_calculateDiscount_spec 7 (by decide)).2.2.1 (by decide),
   (C2_calculateDiscount_spec 7 (by decide)).2.2.2.2 9 (by decide)⟩

/-! ### Claim C10 : parsePrice safety -/

theorem digitsVal_go (l : List Char) (acc : ℕ) :
    l.foldl (fun a c => 10 * a + digitVal c) acc
      = acc * 10 ^ l.length + Nat.ofDigits 10 (l.reverse.map digitVal) := by
  induction l generalizing acc with
  | nil => simp [Nat.ofDigits]
  | cons c t ih =>
      simp only [List.foldl_cons, ih, List.reverse_cons, List.map_append,
        List.map_cons, List.map_nil, Nat.ofDigits_append, List.length_cons,
        List.length_reverse, List.length_map, Nat.ofDigits_singleton]
      ring

/-- `digitsVal` agrees with Mathlib's little-endian `Nat.ofDigits`. -/
theorem digitsVal_eq_ofDigits (l : List Char) :
    digitsVal l = Nat.ofDigits 10 (l.reverse.map digitVal) := by
  simpa using digitsVal_go l 0

theorem mem_replaceFirstComma {c : Char} {l : List Char}
    (h : c ∈ replaceFirstComma l) : c ∈ l ∨ c = '.' := by
  induction l with
  | nil => simp [replaceFirstComma] at h
  | cons d rest ih =>
      by_cases hd : d = ','
      · subst hd
        simp only [replaceFirstComma] at h
        rcases List.mem_cons.1 h with h1 | h1
        · exact Or.inr h1
        · exact Or.inl (List.mem_cons_of_mem _ h1)
      · rw [replaceFirstComma.eq_def] at h
        split at h
        · simp_all
        · simp_all
        · rename_i c2 rest2 hne heq
          rcases List.cons.inj heq with ⟨rfl, rfl⟩
          rcases List.mem_cons.1 h with h1 | h1
          · exact Or.inl (h1 ▸ List.mem_cons_self _ _)
          · rcases ih h1 with h2 | h2
            · exact Or.inl (List.mem_cons_of_mem _ h2)
            · exact Or.inr h2

theorem jsParseFloatMag_nonneg {cs : List Char} {q : ℚ}
    (h : jsParseFloatMag cs = some q) : 0 ≤ q := by
  simp only [jsParseFloatMag] at h
  split at h
  · split at h
    · exact absurd h (by simp)
    · have := Option.some.inj h
      subst this
      positivity
  · split at h
    · exact absurd h (by simp)
    · have := Option.some.inj h
      subst this
      positivity

theorem jsParseFloat_nonneg {cs : List Char} {q : ℚ}
    (hclass : ∀ c ∈ cs, keepPriceChar c = true ∨ c = '.')
    (h : jsParseFloat cs = some q) : 0 ≤ q := by
  unfold jsParseFloat at h
  cases cs with
  | nil =>
      simp [jsSign, jsParseFloatMag, digitsVal] at h
  | cons c rest =>
      have hc : keepPriceChar c = true ∨ c = '.' := hclass c (List.mem_cons_self _ _)
      have hminus : c ≠ '-' := by
        rintro rfl
        rcases hc with hc | hc
        · exact absurd hc (by decide)
        · exact absurd hc (by decide)
      have hplus : c ≠ '+' := by
        rintro rfl
        rcases hc with hc | hc
        · exact absurd hc (by decide)
        · exact absurd hc (by decide)
      rw [jsSign.eq_def] at h
      simp only [if_neg hminus, if_neg hplus] at h
      rcases Option.map_eq_some'.1 h with ⟨m, hm, hq⟩
      have := jsParseFloatMag_nonneg hm
      rw [← hq]
      linarith

/-- `Math.round` of a non-negative rational is non-negative. -/
theorem jsRound_nonneg {q : ℚ} (h : 0 ≤ q) : 0 ≤ jsRound q := by
  rw [jsRound, Int.le_floor]
  push_cast
  linarith

theorem endsCommaDigits_all_digits {l : List Char}
    (h : ∀ c ∈ l, c.isDigit = true) : endsCommaDigits l = false := by
  have hr : ∀ c ∈ l.reverse, c.isDigit = true := by
    intro c hc
    exact h c (List.mem_reverse.1 hc)
  unfold endsCommaDigits
  split
  · rename_i a t heq
    have : (',' : Char) ∈ l.reverse := by rw [heq]; simp
    exact absurd (hr _ this) (by decide)
  · rename_i a b t heq
    have : (',' : Char) ∈ l.reverse := by rw [heq]; simp
    exact absurd (hr _ this) (by decide)
  · rfl

theorem parsePrice_nonneg_aux (s : Option String) : 0 ≤ parsePrice s := by
  unfold parsePrice
  split
  · exact le_refl 0
  · set cleaned := ((s.getD "").data.filter keepPriceChar) with hcleaned
    have hmem : ∀ c2 ∈ (if endsCommaDigits cleaned then
        replaceFirstComma (cleaned.filter (fun c => c ≠ '.'))
      else cleaned.filter (fun c => c ≠ ',')),
        keepPriceChar c2 = true ∨ c2 = '.' := by
      intro c2 hc2
      split at hc2
      · rcases mem_replaceFirstComma hc2 with h1 | h1
        · exact Or.inl (List.of_mem_filter (List.mem_of_mem_filter h1))
        · exact Or.inr h1
      · exact Or.inl (List.of_mem_filter (List.mem_of_mem_filter hc2))
    simp only []
    split
    · exact le_refl 0
    · rename_i price hsome
      exact jsRound_nonneg (jsParseFloat_nonneg hmem hsome)

/--
C10: `parsePrice` is total and never yields `NaN` or a negative value:
for every input (including `null` and strings without digits) the result
is a non-negative integer, and for a digit string grouped with spaces or
non-breaking spaces it is exactly the integer value of the digits.
-/
theorem C10_parsePrice_safe :
    (∀ s : Option String, 0 ≤ parsePrice s)
    ∧ ∀ s : String,
        (∀ c ∈ s.data, c.isDigit = true ∨ c = ' ' ∨ c = Char.ofNat 160) →
        (∃ c ∈ s.data, c.isDigit = true) →
        parsePrice (some s) =
          Nat.ofDigits 10 ((s.data.filter Char.isDigit).reverse.map digitVal) := by
  constructor
  · exact parsePrice_nonneg_aux
  · intro s hclass hdigit
    obtain ⟨c0, hc0, hc0d⟩ := hdigit
    have hne : s ≠ "" := by
      rintro rfl
      simp at hc0
    have htruthy : jsTruthy (some s) = true := by
      simp [jsTruthy, hne]
    have hfilter : s.data.filter keepPriceChar = s.data.filter Char.isDigit := by
      refine List.filter_congr ?_
      intro c hc
      rcases hclass c hc with h | h | h
      · simp [keepPriceChar, h]
      · subst h; decide
      · subst h; decide
    set dl := s.data.filter Char.isDigit with hdl
    have hdld : ∀ c ∈ dl, c.isDigit = true := fun c hc => List.of_mem_filter hc
    have hdlne : dl ≠ [] := by
      have : c0 ∈ dl := List.mem_filter.2 ⟨hc0, hc0d⟩
      intro h
      rw [h] at this
      simp at this
    have hcomma : endsCommaDigits dl = false := endsCommaDigits_all_digits hdld
    have hnocomma : dl.filter (fun c => c ≠ ',') = dl := by
      refine List.filter_eq_self.2 ?_
      intro c hc
      have := hdld c hc
      simp only [ne_eq, decide_eq_true_eq]
      rintro rfl
      exact absurd this (by decide)
    have hsign : jsSign dl = (1, dl) := by
      cases hdl2 : dl with
      | nil => exact absurd hdl2 hdlne
      | cons d rest =>
          have hd : d.isDigit = true := hdld d (hdl2 ▸ List.mem_cons_self _ _)
          have h1 : d ≠ '-' := by rintro rfl; exact absurd hd (by decide)
          have h2 : d ≠ '+' := by rintro rfl; exact absurd hd (by decide)
          rw [jsSign.eq_def]
          simp [if_neg h1, if_neg h2]
    have hmag : jsParseFloatMag dl = some (digitsVal dl) := by
      have htake : dl.takeWhile Char.isDigit = dl := List.takeWhile_eq_self_iff.2 hdld
      simp only [jsParseFloatMag, htake, List.drop_length]
      simp [List.isEmpty_iff, hdlne]
    have hfloat : jsParseFloat dl = some ((digitsVal dl : ℚ)) := by
      simp [jsParseFloat, hsign, hmag]
    have hround : jsRound ((digitsVal dl : ℚ)) = (digitsVal dl : ℤ) := by
      rw [jsRound]
      have : ((digitsVal dl : ℚ)) = (((digitsVal dl : ℤ)) : ℚ) := by push_cast; ring
      rw [this, Int.floor_int_add]
      norm_num
    unfold parsePrice
    rw [if_neg (by simp [htruthy])]
    simp only [Option.getD_some, hfilter, ← hdl, hcomma, Bool.false_eq_true, if_false,
      hnocomma, hfloat, hround]
    rw [digitsVal_eq_ofDigits]
    norm_cast

/-- Witness for C10 on a space-grouped and an nbsp-grouped price string. -/
theorem C10_parsePrice_safe_witness :
    parsePrice (some "47 700") = 47700 ∧ parsePrice (some "15 000") = 15000 := by
  constructor
  · rw [C10_parsePrice_safe.2 "47 700" (by decide) (by decide)]
    decide
  · rw [C10_parsePrice_safe.2 "15 000" (by decide) (by decide)]
    decide

/-! ### Shared facts about parseBookingData -/

theorem parseBookingData_eq_some {p : PageObs} {r : BookingData} :
    parseBookingData p = some r ↔
      isBookingPage p.pathname = true ∧ p.hasContainer = true ∧ r = bookingRecordOf p := by
  unfold parseBookingData
  rcases h1 : isBookingPage p.pathname <;> rcases h2 : p.hasContainer <;>
    simp [h1, h2, eq_comm]

theorem parseBookingData_eq_none {p : PageObs} :
    parseBookingData p = none ↔
      (isBookingPage p.pathname = false ∨ p.hasContainer = false) := by
  unfold parseBookingData
  rcases h1 : isBookingPage p.pathname <;> rcases h2 : p.hasContainer <;>
    simp [h1, h2]

theorem prepayAmountOf_le (rates : List ℤ) (total n : ℤ) :
    prepayAmountOf rates total n ≤ total := by
  unfold prepayAmountOf
  simp only []
  split_ifs <;> omega

theorem overridePrepay_le (cached : List ℤ) (total : ℤ) :
    overridePrepay cached total ≤ total := by
  unfold overridePrepay
  simp only []
  split_ifs <;> omega

theorem surchargeAtHotel_spec (b : BookingData) (h : b.prepayAmount ≤ b.totalPrice) :
    0 ≤ surchargeAtHotel b ∧ b.prepayAmount + surchargeAtHotel b = b.totalPrice := by
  unfold surchargeAtHotel
  simp only []
  split_ifs <;> omega

theorem take_min_three (l : List ℤ) : l.take (min 3 l.length) = l.take 3 := by
  rw [List.take_eq_take]
  omega

theorem cap_eq_min (x t : ℤ) : (if x > t then t else x) = min x t := by
  rw [min_def]
  split_ifs <;> omega

/-! ### Claim C9 : prepayment never exceeds the total -/

/--
C9: every record produced by `parseBookingData`, and every record after the
cached-rates override of `prepareInvoice`, satisfies
`prepayAmount ≤ totalPrice`; the surcharge-at-hotel
(`totalPrice - prepayAmount` clamped at 0) is non-negative and
`prepayAmount + surcharge = totalPrice`.
-/
theorem C9_prepay_capped (p : PageObs) (r : BookingData) (cached : List ℤ)
    (h : parseBookingData p = some r) :
    r.prepayAmount ≤ r.totalPrice
    ∧ 0 ≤ surchargeAtHotel r
    ∧ r.prepayAmount + surchargeAtHotel r = r.totalPrice
    ∧ (applyCachedRates r cached).prepayAmount ≤ (applyCachedRates r cached).totalPrice
    ∧ 0 ≤ surchargeAtHotel (applyCachedRates r cached)
    ∧ (applyCachedRates r cached).prepayAmount
        + surchargeAtHotel (applyCachedRates r cached)
        = (applyCachedRates r cached).totalPrice := by
  obtain ⟨-, -, rfl⟩ := parseBookingData_eq_some.1 h
  have h1 : (bookingRecordOf p).prepayAmount ≤ (bookingRecordOf p).totalPrice := by
    simp only [bookingRecordOf]
    exact prepayAmountOf_le _ _ _
  have h2 := surchargeAtHotel_spec _ h1
  have h3 : (applyCachedRates (bookingRecordOf p) cached).prepayAmount
      ≤ (applyCachedRates (bookingRecordOf p) cached).totalPrice := by
    simp only [applyCachedRates]
    exact overridePrepay_le _ _
  have h4 := surchargeAtHotel_spec _ h3
  exact ⟨h1, h2.1, h2.2, h3, h4.1, h4.2⟩

/-- Sample page observation: a 3-night booking with tooltip per-day rates. -/
def pageC1 : PageObs :=
  { pathname := "/bookings/daily/id/15"
    hasContainer := true
    bookingNumber := some "OTL-0000000015"
    checkIn := some "09.05.2026"
    checkOut := some "12.05.2026"
    roomType := some "Luxe"
    totalPrice := 59700
    guestName := some "Ivanov Ivan"
    guestEmail := some "ivanov@example.com"
    guestPhone := none
    paidAmount := 0
    debtAmount := 0
    guestCount := ⟨2, 0, [], 2, ""⟩
    checkInTime := some "15:00"
    checkOutTime := some "12:00"
    nightsFromDates := 3
    nightsFromText := 0
    dailyRates := [15900, 15900, 15900, 12000] }

/-- Witness for C9 at a concrete parsed page and cached-rate override. -/
theorem C9_prepay_capped_witness :
    (bookingRecordOf pageC1).prepayAmount ≤ (bookingRecordOf pageC1).totalPrice
    ∧ (bookingRecordOf pageC1).prepayAmount + surchargeAtHotel (bookingRecordOf pageC1)
        = (bookingRecordOf pageC1).totalPrice
    ∧ (applyCachedRates (bookingRecordOf pageC1) [30000, 30000, 30000]).prepayAmount
        ≤ (applyCachedRates (bookingRecordOf pageC1) [30000, 30000, 30000]).totalPrice := by
  have h := C9_prepay_capped pageC1 (bookingRecordOf pageC1) [30000, 30000, 30000] (by decide)
  exact ⟨h.1, h.2.2.1, h.2.2.2.1⟩

/-! ### Claim C1 : the prepayment is the first three nightly rates, capped -/

/--
C1: in every parsed record the prepayment is the sum of the first three
per-day rates when the tooltip provided them (all of them when fewer than
three), capped at the total price; without per-day rates it is the rounded
sum of three nightly rates `totalPrice / nightsCount`, capped at the total
price, which for stays of fewer than three nights equals the total price
itself; the cached-rates override of `prepareInvoice` computes the same
capped first-three sum over the cached rates.
-/
theorem C1_prepayment_rule (p : PageObs) (r : BookingData)
    (h : parseBookingData p = some r) :
    (p.dailyRates ≠ [] →
       r.prepayAmount = min ((p.dailyRates.take 3).sum) r.totalPrice)
    ∧ (p.dailyRates = [] → 3 ≤ r.nightsCount →
       r.prepayAmount
         = min (jsRound ((r.totalPrice : ℚ) / (r.nightsCount : ℚ) * 3)) r.totalPrice)
    ∧ (p.dailyRates = [] → 0 < r.nightsCount → r.nightsCount < 3 → 0 ≤ r.totalPrice →
       r.prepayAmount = r.totalPrice)
    ∧ (∀ cached : List ℤ,
       (applyCachedRates r cached).prepayAmount
         = min ((cached.take 3).sum) (applyCachedRates r cached).totalPrice) := by
  obtain ⟨-, -, rfl⟩ := parseBookingData_eq_some.1 h
  simp only [bookingRecordOf, applyCachedRates]
  refine ⟨?_, ?_, ?_, ?_⟩
  · intro hne
    have hlen : 0 < p.dailyRates.length := List.length_pos.2 hne
    unfold prepayAmountOf
    simp only [if_pos hlen, take_min_three]
    exact cap_eq_min _ _
  · intro hnil h3
    have hpos : (0 : ℤ) < nightsCountOf p := by omega
    unfold prepayAmountOf
    rw [hnil]
    simp only [List.length_nil, lt_irrefl, if_false, if_pos hpos]
    rw [cap_eq_min, jsRoundDiv_eq_jsRound _ _ hpos]
    congr 2
    push_cast
    ring
  · intro hnil hpos h3 htot
    unfold prepayAmountOf
    rw [hnil]
    simp only [List.length_nil, lt_irrefl, if_false, if_pos hpos]
    have h12 : nightsCountOf p = 1 ∨ nightsCountOf p = 2 := by omega
    rcases h12 with h12 | h12 <;> rw [h12] <;> unfold jsRoundDiv <;> split_ifs <;> omega
  · intro cached
    unfold overridePrepay
    simp only [take_min_three]
    exact cap_eq_min _ _

/-- Sample page observation: a two-night booking without tooltip rates. -/
def pageC1b : PageObs :=
  { pageC1 with dailyRates := [], nightsFromDates := 2, totalPrice := 30000 }

/-- Witness for C1: rates path on `pageC1`, short-stay fallback path on
`pageC1b`. -/
theorem C1_prepayment_rule_witness :
    (bookingRecordOf pageC1).prepayAmount
        = min ((pageC1.dailyRates.take 3).sum) (bookingRecordOf pageC1).totalPrice
    ∧ (bookingRecordOf pageC1).prepayAmount = 47700
    ∧ (bookingRecordOf pageC1b).prepayAmount = (bookingRecordOf pageC1b).totalPrice :=
  ⟨(C1_prepayment_rule pageC1 (bookingRecordOf pageC1) (by decide)).1 (by decide),
   by decide,
   (C1_prepayment_rule pageC1b (bookingRecordOf pageC1b) (by decide)).2.2.1
     (by decide) (by decide) (by decide) (by decide)⟩

/-! ### Claim C5 : shape of the parse result -/

/--
C5: `parseBookingData` returns `null` exactly when the URL is not a
booking page or the `#MainPageTopBar` container is absent; otherwise it
returns a flat record in which every field is populated best-effort:
string fields default to `""` and the computed numeric fields default to 0
when the corresponding observation is missing.  (It never throws and
mutates nothing: the embedding is a total pure function.)
-/
theorem C5_parse_result_shape (p : PageObs) (r : BookingData) :
    (parseBookingData p = none ↔
      (isBookingPage p.pathname = false ∨ p.hasContainer = false))
    ∧ (parseBookingData p = some r →
        ((r.guestName = "" ↔ jsTruthy p.guestName = false)
         ∧ (r.guestEmail = "" ↔ jsTruthy p.guestEmail = false)
         ∧ (r.guestPhone = "" ↔ jsTruthy p.guestPhone = false)
         ∧ (r.checkIn = "" ↔ jsTruthy p.checkIn = false)
         ∧ (r.checkOut = "" ↔ jsTruthy p.checkOut = false)
         ∧ (r.checkInTime = "" ↔ jsTruthy p.checkInTime = false)
         ∧ (r.checkOutTime = "" ↔ jsTruthy p.checkOutTime = false)
         ∧ (r.roomType = "" ↔ jsTruthy p.roomType = false)
         ∧ (r.bookingNumber = "" ↔ jsTruthy p.bookingNumber = false)
         ∧ (r.totalPrice = p.totalPrice ∧ r.paidAmount = p.paidAmount
            ∧ r.debtAmount = p.debtAmount ∧ r.guestCount = p.guestCount
            ∧ r.dailyRates = p.dailyRates)
         ∧ (p.nightsFromDates ≤ 0 → p.nightsFromText = 0 →
              r.nightsCount = 0 ∧ r.nightlyRate = 0 ∧ r.discountPercent = 0)
         ∧ (p.dailyRates = [] → r.nightsCount = 0 → 0 ≤ p.totalPrice →
              r.prepayAmount = 0))) := by
  constructor
  · exact parseBookingData_eq_none
  · intro h
    obtain ⟨-, -, rfl⟩ := parseBookingData_eq_some.1 h
    have hdef : ∀ o : Option String, (o.getD "" = "" ↔ jsTruthy o = false) := by
      intro o
      simp [jsTruthy]
    refine ⟨hdef _, hdef _, hdef _, hdef _, hdef _, hdef _, hdef _, hdef _, hdef _,
      ⟨rfl, rfl, rfl, rfl, rfl⟩, ?_, ?_⟩
    · intro h1 h2
      have hn : nightsCountOf p = 0 := by
        unfold nightsCountOf
        simp only []
        split_ifs <;> omega
      refine ⟨hn, ?_, ?_⟩
      · simp only [bookingRecordOf, nightlyRateOf, hn]
        norm_num
      · simp only [bookingRecordOf, hn]
        decide
    · intro h1 h2 h3
      simp only [bookingRecordOf] at h2 ⊢
      unfold prepayAmountOf
      rw [h1, h2]
      simp only [List.length_nil, lt_irrefl, if_false]
      split_ifs <;> omega

/-- Sample page observation: a booking page where every scraper came back
empty. -/
def pageC5 : PageObs :=
  { pathname := "/bookings/daily/id/7"
    hasContainer := true
    bookingNumber := none
    checkIn := none
    checkOut := none
    roomType := none
    totalPrice := 0
    guestName := none
    guestEmail := none
    guestPhone := none
    paidAmount := 0
    debtAmount := 0
    guestCount := ⟨0, 0, [], 0, ""⟩
    checkInTime := none
    checkOutTime := none
    nightsFromDates := 0
    nightsFromText := 0
    dailyRates := [] }

/-- Witness for C5 on a page with no scrapable data: the record is fully
defaulted, and a page without the container parses to `null`. -/
theorem C5_parse_result_shape_witness :
    (bookingRecordOf pageC5).guestName = ""
    ∧ (bookingRecordOf pageC5).nightsCount = 0
    ∧ (bookingRecordOf pageC5).prepayAmount = 0
    ∧ parseBookingData { pageC5 with hasContainer := false } = none := by
  have h := (C5_parse_result_shape pageC5 (bookingRecordOf pageC5)).2 (by decide)
  obtain ⟨hgn, -, -, -, -, -, -, -, -, -, hnights, hprepay⟩ := h
  refine ⟨hgn.2 (by decide), (hnights (by decide) (by decide)).1,
    hprepay (by decide) ?_ (by decide), ?_⟩
  · exact (hnights (by decide) (by decide)).1
  · exact (C5_parse_result_shape { pageC5 with hasContainer := false }
      (bookingRecordOf pageC5)).1.2 (Or.inr rfl)

/-! ### Claim C7 : pricing is a deterministic function of the parsed inputs -/

/--
C7: the pricing and discount arithmetic depends on nothing but the parsed
inputs: any two parses that agree on total price, nights count and daily
rates — however much the rest of the page differs — yield identical
`nightlyRate`, `prepayAmount`, `discountPercent`, `discountAmount`,
`fullPaymentWithDiscount`, surcharge-at-hotel and full-payment values.
-/
theorem C7_pricing_deterministic (p q : PageObs) (r s : BookingData)
    (hr : parseBookingData p = some r) (hs : parseBookingData q = some s)
    (ht : r.totalPrice = s.totalPrice) (hn : r.nightsCount = s.nightsCount)
    (hd : r.dailyRates = s.dailyRates) :
    r.nightlyRate = s.nightlyRate
    ∧ r.prepayAmount = s.prepayAmount
    ∧ r.discountPercent = s.discountPercent
    ∧ r.discountAmount = s.discountAmount
    ∧ r.fullPaymentWithDiscount = s.fullPaymentWithDiscount
    ∧ surchargeAtHotel r = surchargeAtHotel s
    ∧ fullPayment r = fullPayment s := by
  obtain ⟨-, -, rfl⟩ := parseBookingData_eq_some.1 hr
  obtain ⟨-, -, rfl⟩ := parseBookingData_eq_some.1 hs
  simp only [bookingRecordOf] at ht hn hd
  simp only [bookingRecordOf, surchargeAtHotel, fullPayment, ht, hn, hd]
  simp

/-- Same pricing inputs as `pageC1`, different guest, email, room and
booking number. -/
def pageC7 : PageObs :=
  { pageC1 with
    guestName := some "Petrov Petr"
    guestEmail := some "petrov@example.org"
    roomType := none
    bookingNumber := some "IMP-AA120226"
    paidAmount := 10000 }

/-- Witness for C7: the two concrete pages differ in guest data only and
get identical pricing. -/
theorem C7_pricing_deterministic_witness :
    (bookingRecordOf pageC1).prepayAmount = (bookingRecordOf pageC7).prepayAmount
    ∧ (bookingRecordOf pageC1).discountAmount = (bookingRecordOf pageC7).discountAmount
    ∧ surchargeAtHotel (bookingRecordOf pageC1) = surchargeAtHotel (bookingRecordOf pageC7) := by
  have h := C7_pricing_deterministic pageC1 pageC7
    (bookingRecordOf pageC1) (bookingRecordOf pageC7)
    (by decide) (by decide) (by decide) (by decide) (by decide)
  exact ⟨h.2.1, h.2.2.2.1, h.2.2.2.2.2.1⟩

/-! ### Claims C3 and C6 : the payment QR strings -/

theorem buildPaymentQR_eq (hotel : HotelDetails) (a : ℚ) (purpose : String) :
    buildPaymentQR hotel a purpose =
      "ST00012|Name=" ++ hotel.name ++ "|PersonalAcc=" ++ hotel.bankAccount
      ++ "|BankName=" ++ hotel.bankName ++ "|BIC=" ++ hotel.bik
      ++ "|CorrespAcc=" ++ hotel.corrAccount ++ "|PayeeINN=" ++ hotel.inn
      ++ "|KPP=" ++ hotel.kpp ++ "|Sum=" ++ toString (jsRound (a * 100))
      ++ "|Purpose=" ++ purpose := by
  apply String.ext
  simp only [buildPaymentQR, joinBar, String.data_append, List.append_assoc]
  rfl

/-- `Math.round` is the identity on 100 times an integer number of rubles. -/
theorem jsRound_int_hundred (z : ℤ) : jsRound ((z : ℚ) * 100) = 100 * z := by
  rw [jsRound]
  have h : ((z : ℚ) * 100) = ((100 * z : ℤ) : ℚ) := by push_cast; ring
  rw [h, Int.floor_int_add]
  norm_num

/--
C3: `buildPaymentQR` produces the GOST R 56042-2014 payment string: it
starts with the service marker `ST00012` and consists of that marker
followed by the fields Name, PersonalAcc, BankName, BIC, CorrespAcc,
PayeeINN, KPP, Sum, Purpose in that order joined by `|`, where Sum is the
amount in kopeks, `round(amountRub * 100)`.
-/
theorem C3_buildPaymentQR_format (hotel : HotelDetails) (a : ℚ) (purpose : String) :
    buildPaymentQR hotel a purpose =
      "ST00012|Name=" ++ hotel.name ++ "|PersonalAcc=" ++ hotel.bankAccount
      ++ "|BankName=" ++ hotel.bankName ++ "|BIC=" ++ hotel.bik
      ++ "|CorrespAcc=" ++ hotel.corrAccount ++ "|PayeeINN=" ++ hotel.inn
      ++ "|KPP=" ++ hotel.kpp ++ "|Sum=" ++ toString ⌊a * 100 + 1/2⌋
      ++ "|Purpose=" ++ purpose
    ∧ ∃ rest, (buildPaymentQR hotel a purpose).data = "ST00012".data ++ rest := by
  constructor
  · exact buildPaymentQR_eq hotel a purpose
  · refine ⟨("|Name=" ++ hotel.name ++ "|PersonalAcc=" ++ hotel.bankAccount
      ++ "|BankName=" ++ hotel.bankName ++ "|BIC=" ++ hotel.bik
      ++ "|CorrespAcc=" ++ hotel.corrAccount ++ "|PayeeINN=" ++ hotel.inn
      ++ "|KPP=" ++ hotel.kpp ++ "|Sum=" ++ toString (jsRound (a * 100))
      ++ "|Purpose=" ++ purpose).data, ?_⟩
    rw [buildPaymentQR_eq]
    simp only [String.data_append, List.append_assoc]
    rfl

/--
C6: the invoice PDF embeds exactly two payment QR payloads: the first over
`prepayAmount`, the second over `fullPaymentWithDiscount` when it is set
(JS `||`: nonzero), otherwise `totalPrice`; their Sum fields carry those
amounts in kopeks and both purpose strings contain the booking number and
the guest name.
-/
theorem C6_invoice_qr_codes (b : BookingData) (hotel : HotelDetails) :
    invoiceQRCodes b hotel =
      [ buildPaymentQR hotel ((b.prepayAmount : ℤ) : ℚ) (prepayPurpose b),
        buildPaymentQR hotel
          (((if b.fullPaymentWithDiscount ≠ 0 then b.fullPaymentWithDiscount
             else b.totalPrice : ℤ)) : ℚ) (fullPurpose b) ]
    ∧ (∃ u v, (buildPaymentQR hotel ((b.prepayAmount : ℤ) : ℚ) (prepayPurpose b)).data
        = u ++ ("Sum=" ++ toString (100 * b.prepayAmount)).data ++ v)
    ∧ (∃ u v, (buildPaymentQR hotel ((fullPayment b : ℤ) : ℚ) (fullPurpose b)).data
        = u ++ ("Sum=" ++ toString (100 * fullPayment b)).data ++ v)
    ∧ (∃ u v, (prepayPurpose b).data = u ++ b.bookingNumber.data ++ v)
    ∧ (∃ u v, (prepayPurpose b).data = u ++ b.guestName.data ++ v)
    ∧ (∃ u v, (fullPurpose b).data = u ++ b.bookingNumber.data ++ v)
    ∧ (∃ u v, (fullPurpose b).data = u ++ b.guestName.data ++ v) := by
  have hsum : ∀ (z : ℤ) (purpose : String),
      ∃ u v, (buildPaymentQR hotel ((z : ℤ) : ℚ) purpose).data
        = u ++ ("Sum=" ++ toString (100 * z)).data ++ v := by
    intro z purpose
    refine ⟨("ST00012|Name=" ++ hotel.name ++ "|PersonalAcc=" ++ hotel.bankAccount
      ++ "|BankName=" ++ hotel.bankName ++ "|BIC=" ++ hotel.bik
      ++ "|CorrespAcc=" ++ hotel.corrAccount ++ "|PayeeINN=" ++ hotel.inn
      ++ "|KPP=" ++ hotel.kpp ++ "|").data,
      ("|Purpose=" ++ purpose).data, ?_⟩
    rw [buildPaymentQR_eq, jsRound_int_hundred]
    simp only [String.data_append, List.append_assoc]
    rfl
  refine ⟨rfl, hsum b.prepayAmount (prepayPurpose b), hsum (fullPayment b) (fullPurpose b),
    ?_, ?_, ?_, ?_⟩
  · refine ⟨"Предоплата за проживание по бронированию ".data,
      (", " ++ b.guestName).data, ?_⟩
    simp only [prepayPurpose, String.data_append, List.append_assoc]
  · refine ⟨("Предоплата за проживание по бронированию " ++ b.bookingNumber ++ ", ").data,
      [], ?_⟩
    simp only [prepayPurpose, String.data_append, List.append_assoc, List.append_nil]
  · refine ⟨"Оплата за проживание по бронированию ".data,
      (", " ++ b.guestName).data, ?_⟩
    simp only [fullPurpose, String.data_append, List.append_assoc]
  · refine ⟨("Оплата за проживание по бронированию " ++ b.bookingNumber ++ ", ").data,
      [], ?_⟩
    simp only [fullPurpose, String.data_append, List.append_assoc, List.append_nil]

/-! ### Claim C4 : success response vs. IMAP archiving -/

/-- A fully configured environment whose IMAP append fails. -/
def envC4 : RelayEnv :=
  { apiKey := some "secret-key"
    smtpEmail := some "hotel@yandex.ru"
    smtpPassword := some "app-password"
    smtpOk := true
    imapOk := false }

/-- A well-formed send-invoice request. -/
def reqC4 : RelayRequest :=
  { method := "POST"
    headerApiKey := some "secret-key"
    toAddr := some "guest@example.com"
    subject := some "Invoice"
    text := some "Please pay"
    pdfFilename := some "invoice.pdf"
    pdf := some [37, 80, 68, 70, 10, 49, 50] }

/--
Counterexample to C4 as stated: when the IMAP append to the Sent folder
fails, the relay still answers HTTP 200 with `success: true` (merely
reporting `imapSaved: false`), so a 200/success response does not imply
the message was archived via IMAP.
-/
theorem C4_success_without_archive_counterexample :
    (relayHandler envC4 reqC4).status = 200
    ∧ (relayHandler envC4 reqC4).success = true
    ∧ (relayHandler envC4 reqC4).emailSent = true
    ∧ (relayHandler envC4 reqC4).imapArchived = false
    ∧ (relayHandler envC4 reqC4).imapSaved = false := by decide

set_option maxHeartbeats 2000000 in
/-- Every handler run ends in one of three outcomes: an early response
with no side effects, the SMTP-failure 500, or the success response. -/
theorem relayHandler_shape (env : RelayEnv) (req : RelayRequest) :
    (∃ k, relayHandler env req = noSideEffects k)
    ∨ relayHandler env req = smtpFailOutcome
    ∨ relayHandler env req = successOutcome env.imapOk := by
  simp only [relayHandler]
  split_ifs <;>
    first
      | exact Or.inr (Or.inl rfl)
      | exact Or.inr (Or.inr rfl)
      | exact Or.inl ⟨_, rfl⟩

/--
C4 (amended): for every request the relay answers with HTTP 200 and
`success: true`, it has forwarded the PDF by SMTP and has *attempted* the
IMAP archiving into the Sent folder; the archiving itself is best-effort
and its outcome is reported in the `imapSaved` field of the response
rather than guaranteed.
-/
theorem C4_success_semantics (env : RelayEnv) (req : RelayRequest)
    (h200 : (relayHandler env req).status = 200)
    (hok : (relayHandler env req).success = true) :
    (relayHandler env req).smtpAttempted = true
    ∧ (relayHandler env req).emailSent = true
    ∧ (relayHandler env req).imapAttempted = true
    ∧ (relayHandler env req).imapSaved = (relayHandler env req).imapArchived := by
  rcases relayHandler_shape env req with ⟨k, hk⟩ | h | h
  · rw [hk] at hok
    exact absurd hok (by simp [noSideEffects])
  · rw [h] at h200
    exact absurd h200 (by simp [smtpFailOutcome])
  · rw [h]
    exact ⟨rfl, rfl, rfl, rfl⟩

/-- Witness for C4 (amended) on a concrete successful request. -/
theorem C4_success_semantics_witness :
    (relayHandler { envC4 with imapOk := true } reqC4).emailSent = true
    ∧ (relayHandler { envC4 with imapOk := true } reqC4).imapSaved
        = (relayHandler { envC4 with imapOk := true } reqC4).imapArchived :=
  ⟨(C4_success_semantics { envC4 with imapOk := true } reqC4 (by decide) (by decide)).2.1,
   (C4_success_semantics { envC4 with imapOk := true } reqC4 (by decide) (by decide)).2.2.2⟩

/-! ### Claim C8 : the relay sends nothing unless every precondition holds -/

set_option maxHeartbeats 2000000 in
/--
C8: with a configured server (API key and SMTP credentials set) and a POST
request, the relay reaches the SMTP send exactly when the API key matches,
all of to/subject/text/pdfFilename/pdf are present and nonempty, the
recipient matches the email regex and the attachment starts with `%PDF`;
when any of these preconditions fails it sends nothing, attempts no IMAP
operation, and answers 401 or 400 with `success: false`.
-/
theorem C8_relay_precondition_gate (env : RelayEnv) (req : RelayRequest)
    (hm : req.method = "POST")
    (hk : jsTruthy env.apiKey = true)
    (he : jsTruthy env.smtpEmail = true)
    (hp : jsTruthy env.smtpPassword = true) :
    ((relayHandler env req).smtpAttempted = true ↔ relayPreconds env req)
    ∧ (¬ relayPreconds env req →
        (relayHandler env req).smtpAttempted = false
        ∧ (relayHandler env req).emailSent = false
        ∧ (relayHandler env req).imapAttempted = false
        ∧ ((relayHandler env req).status = 401 ∨ (relayHandler env req).status = 400)
        ∧ (relayHandler env req).success = false) := by
  have hO : ¬(req.method = "OPTIONS") := by rw [hm]; decide
  have hP : ¬(req.method ≠ "POST") := by rw [hm]; simp
  simp only [relayHandler, if_neg hO, if_neg hP, hk, he, hp, Bool.not_true,
    Bool.false_or, Bool.or_false, Bool.false_eq_true, if_false]
  split_ifs with hA hB hC hD hE
  · refine ⟨⟨fun hfalse => absurd hfalse (by simp [noSideEffects]),
      fun hpre => absurd hpre.1 hA⟩, fun _ => ⟨rfl, rfl, rfl, Or.inl rfl, rfl⟩⟩
  · refine ⟨⟨fun hfalse => absurd hfalse (by simp [noSideEffects]), ?_⟩,
      fun _ => ⟨rfl, rfl, rfl, Or.inr rfl, rfl⟩⟩
    rintro ⟨h1, h2, h3, h4, h5, h6, h7, h8, h9⟩
    simp only [h2, h3, h4, h5, Bool.not_true, Bool.false_or, Bool.or_false] at hB
    exact absurd (List.isEmpty_iff.1 hB) h6
  · refine ⟨⟨fun hfalse => absurd hfalse (by simp [noSideEffects]), ?_⟩,
      fun _ => ⟨rfl, rfl, rfl, Or.inr rfl, rfl⟩⟩
    rintro ⟨h1, h2, h3, h4, h5, h6, h7, h8, h9⟩
    rw [h7] at hC
    simp at hC
  · refine ⟨⟨fun hfalse => absurd hfalse (by simp [noSideEffects]), ?_⟩,
      fun _ => ⟨rfl, rfl, rfl, Or.inr rfl, rfl⟩⟩
    rintro ⟨h1, h2, h3, h4, h5, h6, h7, h8, h9⟩
    rcases Bool.or_eq_true_iff.1 hD with hD1 | hD1
    · exact absurd (of_decide_eq_true hD1) (by omega)
    · exact absurd h9 (of_decide_eq_true hD1)
  · have hpre : relayPreconds env req := by
      rw [Bool.not_eq_true] at hB hC hD
      simp only [Bool.or_eq_false_iff, Bool.not_eq_false'] at hB hC hD
      obtain ⟨⟨⟨⟨hb1, hb2⟩, hb3⟩, hb4⟩, hb5⟩ := hB
      simp only [decide_eq_false_iff_not, not_lt, not_not] at hD
      exact ⟨not_ne_iff.1 hA, hb1, hb2, hb3, hb4,
        List.isEmpty_eq_false.1 hb5, hC, hD.1, hD.2⟩
    exact ⟨⟨fun _ => hpre, fun _ => rfl⟩, fun hnp => absurd hpre hnp⟩
  · have hpre : relayPreconds env req := by
      rw [Bool.not_eq_true] at hB hC hD
      simp only [Bool.or_eq_false_iff, Bool.not_eq_false'] at hB hC hD
      obtain ⟨⟨⟨⟨hb1, hb2⟩, hb3⟩, hb4⟩, hb5⟩ := hB
      simp only [decide_eq_false_iff_not, not_lt, not_not] at hD
      exact ⟨not_ne_iff.1 hA, hb1, hb2, hb3, hb4,
        List.isEmpty_eq_false.1 hb5, hC, hD.1, hD.2⟩
    exact ⟨⟨fun _ => hpre, fun _ => rfl⟩, fun hnp => absurd hpre hnp⟩

/-- A configured environment for the C8 witness. -/
def envC8 : RelayEnv :=
  { apiKey := some "k", smtpEmail := some "hotel@yandex.ru",
    smtpPassword := some "p", smtpOk := true, imapOk := true }

/-- A request whose `X-API-Key` does not match the server key. -/
def reqC8 : RelayRequest :=
  { method := "POST", headerApiKey := some "wrong"
    toAddr := some "guest@example.com", subject := some "s", text := some "t"
    pdfFilename := some "f.pdf", pdf := some [37, 80, 68, 70] }

/-- Witness for C8: a wrong API key yields a 4xx failure with no mail I/O. -/
theorem C8_relay_precondition_gate_witness :
    (relayHandler envC8 reqC8).smtpAttempted = false
    ∧ ((relayHandler envC8 reqC8).status = 401 ∨ (relayHandler envC8 reqC8).status = 400)
    ∧ (relayHandler envC8 reqC8).success = false := by
  have h := (C8_relay_precondition_gate envC8 reqC8
    (by decide) (by decide) (by decide) (by decide)).2
    (by unfold relayPreconds; decide)
  exact ⟨h.1, h.2.2.2.1, h.2.2.2.2⟩
